import Mathlib

/-!
Verification of the `MoveTo` movement controller of
`internal/action/step/move.go` and of the `PathStuckDetector` liveness
tracker, by a shallow embedding.

The control loop of `MoveTo` is modelled as a step function
`moveIteration : MoveParams → MoveState → Snapshot → IterResult` over an
explicit state: one application of `moveIteration` is one iteration of the
Go `for` loop.  The external collaborators (pathfinder, world snapshot,
input layer) are out of scope for the source and enter the model as oracle
fields of `Snapshot`, refreshed once per iteration exactly like
`ctx.RefreshGameData()`.  Wall-clock time is explicit: `Snapshot.now` is
the current time in milliseconds and `time.Since(t)` becomes `now - t`.
Commands emitted to the input layer (movement, clicks, key presses) are
collected in a `List Command` so that claims about issued commands can be
stated.
-/

namespace KooloStep

/-- Integer (X, Y) grid position, mirroring `data.Position`. -/
structure Position where
  x : Int
  y : Int
deriving DecidableEq, Repr

/-- A monster entity; only the fields `MoveTo` reads are modelled. -/
structure Monster where
  id : Nat
  pos : Position
deriving DecidableEq, Repr

/-- A destructible object near the player (`GetClosestDestructible` result). -/
structure DestructibleObj where
  pos : Position
  selectable : Bool
deriving DecidableEq, Repr

/-- `data.MonsterFilter` (`func(m Monsters) Monsters`): a caller-supplied
transformation of the enemy list. -/
abbrev MonsterFilter := List Monster → List Monster

/-- The named errors of move.go lines 22-27, plus the two generic fatal
errors (door interaction exhausted, collision-data timeout) and the
external drop-interrupt error. -/
inductive MoveErr where
  | monstersInPath
  | playerStuck
  | playerRoundTrip
  | noPath
  | doorInteract
  | collisionTimeout
  | dropInterrupt
deriving DecidableEq, Repr

/-- Inputs the controller emits towards the game (input layer and
pathfinder), in emission order within one iteration. -/
inductive Command where
  | moveThroughPath (path : List Position) (duration : Nat)
  | sleepMs (ms : Nat)
  | clickDestructible (p : Position)
  | interactDoor
  | randomMovement
  | pressSkillKey (skillId : Nat)
deriving DecidableEq, Repr

/-- `MoveOpts` of move.go lines 29-38. -/
structure MoveOpts where
  distanceOverride : Option Int := none
  stationaryMinDistance : Option Int := none
  stationaryMaxDistance : Option Int := none
  ignoreShrines : Bool := false
  ignoreMonsters : Bool := false
  ignoreItems : Bool := false
  monsterFilters : List MonsterFilter := []
  clearPathOverride : Option Int := none

/-- The option constructors of move.go lines 42-85, as an inductive: each
constructor is one of the `MoveOption` closures the Go code can build. -/
inductive MoveOption where
  | withDistanceToFinish (distance : Int)
  | withStationaryDistance (mn mx : Int)
  | withIgnoreMonsters
  | withIgnoreItems
  | ignoreShrines
  | withMonsterFilter (filters : List MonsterFilter)
  | withClearPathOverride (clearPathOverride : Int)

/-- Effect of one option-applying function on the options bag. -/
def applyOption (opts : MoveOpts) : MoveOption → MoveOpts
  | .withDistanceToFinish d => { opts with distanceOverride := some d }
  | .withStationaryDistance mn mx =>
      { opts with stationaryMinDistance := some mn
                  stationaryMaxDistance := some mx }
  | .withIgnoreMonsters => { opts with ignoreMonsters := true }
  | .withIgnoreItems => { opts with ignoreItems := true }
  | .ignoreShrines => { opts with ignoreShrines := true }
  | .withMonsterFilter fs => { opts with monsterFilters := opts.monsterFilters ++ fs }
  | .withClearPathOverride d => { opts with clearPathOverride := some d }

/-- move.go lines 109-114: `opts := &MoveOpts{}` then the ordered
application of every provided option. -/
def applyOptions (options : List MoveOption) : MoveOpts :=
  options.foldl applyOption {}

/-- move.go line 19. -/
def DistanceToFinishMoving : Int := 4

/-- move.go line 20, in milliseconds. -/
def stepMonsterCheckInterval : Nat := 100

/-- move.go line 128, in milliseconds. -/
def blockThreshold : Nat := 200

/-- move.go line 129, in milliseconds. -/
def stuckThreshold : Nat := 2000

/-- move.go line 134, in milliseconds. -/
def roundTripThreshold : Nat := 10000

/-- move.go line 135. -/
def roundTripMaxRadius : Int := 8

/-- move.go line 158. -/
def maxObstacleBypassAttempts : Nat := 3

/-- Per-call constants of `MoveTo`, fixed before the loop starts
(move.go lines 107-164). -/
structure MoveParams where
  dest : Position
  opts : MoveOpts
  minDistanceToFinishMoving : Int
  isDragondin : Bool
  clearPathDist : Int
  overrideClearPathDist : Bool
  walkDuration : Nat
  startArea : Nat

/-- The setup section of `MoveTo` (lines 107-164): apply the options,
resolve the finish distance, overwrite the ignore-shrines flag from the
character configuration (line 125), resolve the clear-path distance. -/
def setupParams (dest : Position) (options : List MoveOption)
    (interactWithShrines : Bool) (isDragondin : Bool)
    (cfgClearPathDist : Int) (walkDuration : Nat) (startArea : Nat) : MoveParams :=
  let opts0 := applyOptions options
  let minD := match opts0.distanceOverride with
    | some d => d
    | none => DistanceToFinishMoving
  let opts := { opts0 with ignoreShrines := !interactWithShrines }
  let cpd := match opts.clearPathOverride with
    | some d => (d, true)
    | none => (cfgClearPathDist, false)
  { dest := dest, opts := opts, minDistanceToFinishMoving := minD,
    isDragondin := isDragondin, clearPathDist := cpd.1,
    overrideClearPathDist := cpd.2, walkDuration := walkDuration,
    startArea := startArea }

/-- The loop-carried mutable variables of `MoveTo`
(move.go lines 126-157). -/
structure MoveState where
  stepLastMonsterCheck : Nat
  stuckCheckStartTime : Nat
  roundTripReferencePosition : Position
  roundTripCheckStartTime : Nat
  lastRun : Nat
  previousPosition : Position
  blocked : Bool
  obstacleBypassAttempts : Nat
deriving DecidableEq, Repr

/-- Initial loop state (lines 126-157): zero times for the monster check
and `lastRun` (Go zero `time.Time`), current time for the stuck and
round-trip timers, the player's position as round-trip reference, and the
zero position as `previousPosition`. -/
def initialState (playerPos : Position) (now : Nat) : MoveState :=
  { stepLastMonsterCheck := 0, stuckCheckStartTime := now,
    roundTripReferencePosition := playerPos, roundTripCheckStartTime := now,
    lastRun := 0, previousPosition := ⟨0, 0⟩, blocked := false,
    obstacleBypassAttempts := 0 }

/-- One refreshed world snapshot together with the collaborator oracles
(`ctx.PathFinder`, `ctx.Data`, `utils.CalculateDistance`) that the loop
body queries during a single iteration.  The pathfinder and the game
snapshot are external collaborators of the controller, so their answers
are oracle fields. -/
structure Snapshot where
  now : Nat
  dropErr : Bool
  playerPos : Position
  area : Nat
  isTown : Bool
  canTeleport : Bool
  stunned : Bool
  castDuration : Nat
  areaOrigin : Position
  distanceFromMe : Position → Int
  calcDistance : Position → Position → Int
  isObstacleBetween : Position → Position → Bool
  getPositionPast : Position → Position
  hasDoorBetween : Position → Position → Bool
  doorInteractOk : Nat → Bool
  baseEnemies : List Monster
  shouldIgnoreMonster : Monster → Bool
  lineOfSight : Position → Position → Bool
  closestDestructible : Option DestructibleObj
  closestDoorFound : Bool
  rightSkill : Nat
  keyBindingForSkill : Nat → Option Nat
  pathResult : Option (List Position)
  collisionReady : Nat → Bool

/-- Outcome of a single loop iteration: either `MoveTo` returns
(`done none` is the `return nil` success, `done (some e)` an error
return), or the loop continues with an updated state.  In both cases the
commands emitted during the iteration are carried along. -/
inductive IterResult where
  | done (err : Option MoveErr) (cmds : List Command)
  | next (s : MoveState) (cmds : List Command)
deriving DecidableEq, Repr

/-- The returned error of an iteration: `none` when the loop continues,
`some e` when `MoveTo` returns (`e = none` meaning `return nil`). -/
def IterResult.retErr : IterResult → Option (Option MoveErr)
  | .done e _ => some e
  | .next _ _ => none

/-- Commands emitted during the iteration. -/
def IterResult.cmds : IterResult → List Command
  | .done _ c => c
  | .next _ c => c

/-- Whether a command is an `IssueMovement` (`MoveThroughPath`). -/
def isMoveCmd : Command → Bool
  | .moveThroughPath _ _ => true
  | _ => false

/-- Grid-relative to world coordinates: `path point + area origin`
(move.go lines 422-425). -/
def worldOf (origin p : Position) : Position :=
  ⟨p.x + origin.x, p.y + origin.y⟩

/-- World to grid-relative coordinates for `GetPositionPast` results
(move.go lines 213-217 and 470-474). -/
def movePastGrid (snap : Snapshot) (dest : Position) : Position :=
  let movePastPos := snap.getPositionPast dest
  ⟨movePastPos.x - snap.areaOrigin.x, movePastPos.y - snap.areaOrigin.y⟩

/-- The bounded poll for collision data after an area transition
(move.go lines 181-191): while `now < deadline`, test readiness, else
sleep 100 ms and refresh.  Returns whether the data became ready together
with the number of polls performed. -/
def collisionWaitGo (ready : Nat → Bool) (deadline t : Nat) : Bool × Nat :=
  if h : t < deadline then
    if ready t then (true, 1)
    else
      let r := collisionWaitGo ready deadline (t + 100)
      (r.1, r.2 + 1)
  else (false, 0)
termination_by deadline - t
decreasing_by omega

/-- The door-interaction retry loop (move.go lines 249-260, `for range 5`):
`doorInteractOk i` is whether attempt `i` of `InteractObject` returns nil.
Returns success together with the number of attempts performed. -/
def doorRetry (ok : Nat → Bool) : Nat → Nat → Bool × Nat
  | 0, _ => (false, 0)
  | n + 1, i =>
    if ok i then (true, 1)
    else
      let r := doorRetry ok n (i + 1)
      (r.1, r.2 + 1)

/-- Commands emitted by the door-interaction retry loop: one interaction
per attempt, with a random jitter movement and a 250 ms sleep after each
failed attempt (move.go lines 251-259). -/
def doorRetryCommands (ok : Nat → Bool) : Nat → Nat → List Command
  | 0, _ => []
  | n + 1, i =>
    if ok i then [Command.interactDoor]
    else Command.interactDoor :: Command.randomMovement :: Command.sleepMs 250 ::
      doorRetryCommands ok n (i + 1)

/-- The teleport obstacle-bypass sub-step shared by the pre-check
(move.go lines 204-231) and the zero-valid-segments case of the
look-ahead (lines 463-486): move just past the destination, update
`lastRun`/`previousPosition`, reset the bypass counter if the player
moved, and continue the loop. -/
def bypassStep (P : MoveParams) (s : MoveState) (snap : Snapshot)
    (attempts : Nat) (acc : List Command) : IterResult :=
  let attempts2 := if s.previousPosition ≠ snap.playerPos then 0 else attempts
  .next { s with lastRun := snap.now
                 obstacleBypassAttempts := attempts2
                 previousPosition := snap.playerPos }
    (acc ++ [Command.moveThroughPath [movePastGrid snap P.dest] P.walkDuration,
             Command.sleepMs 100])

/-- Guard of the teleport obstacle pre-check (move.go lines 202-204):
teleporting, within finish range, bypass attempts remaining, and an
obstacle on the straight line to the destination. -/
def precheckCond (P : MoveParams) (s : MoveState) (snap : Snapshot) (dist : Int) : Bool :=
  snap.canTeleport && decide (dist ≤ P.minDistanceToFinishMoving) &&
  decide (s.obstacleBypassAttempts < maxObstacleBypassAttempts) &&
  snap.isObstacleBetween snap.playerPos P.dest

/-- Whether the non-teleport door stage finds a door (move.go line 247). -/
def doorPresentCond (snap : Snapshot) (dest : Position) : Bool :=
  !snap.canTeleport && snap.hasDoorBetween snap.playerPos dest

/-- Whether the door stage fails: a door was found and all five
interaction attempts failed (move.go lines 249-263). -/
def doorFailCond (snap : Snapshot) (dest : Position) : Bool :=
  doorPresentCond snap dest && !(doorRetry snap.doorInteractOk 5 0).1

/-- Commands of the door stage: the retry-loop commands when a door was
found, nothing otherwise. -/
def doorStageCommands (snap : Snapshot) (dest : Position) : List Command :=
  if doorPresentCond snap dest = true then doorRetryCommands snap.doorInteractOk 5 0
  else []

/-- The stationary-distance band check (move.go lines 268-273). -/
def stationaryHit (opts : MoveOpts) (dist : Int) : Bool :=
  match opts.stationaryMinDistance, opts.stationaryMaxDistance with
  | some mn, some mx => decide (mn ≤ dist) && decide (dist ≤ mx)
  | _, _ => false

/-- The teleport cast-duration gate (move.go lines 276-281). -/
def castGateCond (s : MoveState) (snap : Snapshot) : Bool :=
  snap.canTeleport && decide (snap.now - s.lastRun < snap.castDuration)

/-- Guard of the monster-interrupt check (move.go line 284). -/
def monsterGuard (P : MoveParams) (s : MoveState) (snap : Snapshot) : Bool :=
  !P.opts.ignoreMonsters && !snap.isTown &&
  (!snap.canTeleport || P.overrideClearPathDist) &&
  decide (0 < P.clearPathDist) &&
  decide (stepMonsterCheckInterval < snap.now - s.stepLastMonsterCheck)

/-- `ctx.Data.Monsters.Enemies(opts.monsterFilters...)`: the caller
filters applied in order to the enemy list of the snapshot. -/
def candidateEnemies (opts : MoveOpts) (snap : Snapshot) : List Monster :=
  opts.monsterFilters.foldl (fun ms f => f ms) snap.baseEnemies

/-- The enemy scan of move.go lines 288-304: skip ignored monsters, then
test distance, then line of sight, then door, breaking at the first enemy
satisfying all three. -/
def scanForMonster (snap : Snapshot) (clearPathDist : Int) : List Monster → Bool
  | [] => false
  | m :: rest =>
    if snap.shouldIgnoreMonster m then scanForMonster snap clearPathDist rest
    else if snap.distanceFromMe m.pos ≤ clearPathDist then
      if snap.lineOfSight snap.playerPos m.pos then
        if snap.hasDoorBetween snap.playerPos m.pos then
          scanForMonster snap clearPathDist rest
        else true
      else scanForMonster snap clearPathDist rest
    else scanForMonster snap clearPathDist rest

/-- Round-trip radius test of move.go line 314. -/
def withinRoundTrip (s : MoveState) (snap : Snapshot) : Bool :=
  decide (snap.calcDistance snap.playerPos s.roundTripReferencePosition ≤ roundTripMaxRadius)

/-- Round-trip timer past the 10 s threshold (move.go line 316). -/
def roundTripExpired (s : MoveState) (snap : Snapshot) : Bool :=
  decide (roundTripThreshold < snap.now - s.roundTripCheckStartTime)

/-- Round-trip timer past half the threshold (move.go line 319). -/
def roundTripHalf (s : MoveState) (snap : Snapshot) : Bool :=
  decide (roundTripThreshold / 2 < snap.now - s.roundTripCheckStartTime)

/-- Exact position unchanged and not stunned (move.go line 328). -/
def stuckUnchanged (s : MoveState) (snap : Snapshot) : Bool :=
  decide (snap.playerPos = s.previousPosition) && !snap.stunned

/-- Stuck timer past the 2 s threshold (move.go line 330). -/
def stuckExpired (s : MoveState) (snap : Snapshot) : Bool :=
  decide (stuckThreshold < snap.now - s.stuckCheckStartTime)

/-- Stuck timer past the 200 ms block threshold (move.go line 333). -/
def stuckBlockExpired (s : MoveState) (snap : Snapshot) : Bool :=
  decide (blockThreshold < snap.now - s.stuckCheckStartTime)

/-- Value of the `blocked` flag after the liveness stage of an iteration
(move.go lines 312-340): raised by the round-trip half-threshold or by the
stuck block threshold, starting from false each iteration. -/
def livenessBlocked (s : MoveState) (snap : Snapshot) : Bool :=
  (withinRoundTrip s snap && roundTripHalf s snap) ||
  (stuckUnchanged s snap && stuckBlockExpired s snap)

/-- The state bookkeeping of the monster, round-trip and stuck stages of
one iteration (move.go lines 285, 324-325 and 339): the monster-check
timestamp when the guard fired, the round-trip reference and timer when
the player left the radius, the stuck timer when the player moved or is
stunned, and the soft-blocked flag recomputed for this iteration. -/
def livenessUpdate (P : MoveParams) (s : MoveState) (snap : Snapshot) : MoveState :=
  let s1 :=
    if monsterGuard P s snap = true then { s with stepLastMonsterCheck := snap.now }
    else s
  let s2 :=
    if withinRoundTrip s snap = true then s1
    else { s1 with roundTripReferencePosition := snap.playerPos
                   roundTripCheckStartTime := snap.now }
  let s3 :=
    if stuckUnchanged s snap = true then s2
    else { s2 with stuckCheckStartTime := snap.now }
  { s3 with blocked := livenessBlocked s snap }

/-- Skill identifiers (`skill.Teleport`, `skill.Conviction`, `skill.Vigor`
of the external d2go package; the values are opaque tags). -/
def skillTeleport : Nat := 54

def skillConviction : Nat := 123

def skillVigor : Nat := 115

/-- Navigation-skill maintenance (move.go lines 364-385): press the key
for the desired skill only when the active right skill differs. -/
def skillStageCommands (P : MoveParams) (snap : Snapshot) : List Command :=
  if snap.canTeleport then
    if snap.rightSkill ≠ skillTeleport then [Command.pressSkillKey skillTeleport] else []
  else if P.isDragondin then
    match snap.keyBindingForSkill skillConviction with
    | some _ =>
      if snap.rightSkill ≠ skillConviction then [Command.pressSkillKey skillConviction] else []
    | none =>
      match snap.keyBindingForSkill skillVigor with
      | some _ =>
        if snap.rightSkill ≠ skillVigor then [Command.pressSkillKey skillVigor] else []
      | none => []
  else
    match snap.keyBindingForSkill skillVigor with
    | some _ =>
      if snap.rightSkill ≠ skillVigor then [Command.pressSkillKey skillVigor] else []
    | none => []

/-- The bounded look-ahead scan of move.go lines 417-436: from
`checkPos`, validate successive path points (converted to world
coordinates) while no obstacle blocks the segment, for at most `fuel`
segments, returning the last valid index (Go's `lastValidIndex`, `none`
for -1). -/
def lookaheadScanGo (obst : Position → Position → Bool) (origin : Position) :
    Position → List Position → Nat → Nat → Option Nat
  | _, _, 0, _ => none
  | _, [], _, _ => none
  | checkPos, p :: rest, fuel + 1, i =>
    if obst checkPos (worldOf origin p) then none
    else
      match lookaheadScanGo obst origin (worldOf origin p) rest fuel (i + 1) with
      | some j => some j
      | none => some i

/-- The commit step of move.go lines 494-502: record `lastRun`, reset the
bypass counter if the player moved, record `previousPosition`, and issue
the movement over the (possibly truncated) path. -/
def commitMove (P : MoveParams) (s : MoveState) (snap : Snapshot)
    (acc : List Command) (path : List Position) : IterResult :=
  let attempts := if s.previousPosition ≠ snap.playerPos then 0 else s.obstacleBypassAttempts
  .next { s with lastRun := snap.now
                 obstacleBypassAttempts := attempts
                 previousPosition := snap.playerPos }
    (acc ++ [Command.moveThroughPath path P.walkDuration])

/-- Tail of an iteration from the skill-maintenance stage on
(move.go lines 364-502): skill upkeep, path computation, teleport
look-ahead validation / truncation / bypass, and the movement commit. -/
def moveIterationTail (P : MoveParams) (s : MoveState) (snap : Snapshot)
    (acc : List Command) : IterResult :=
  let acc2 := acc ++ skillStageCommands P snap
  match snap.pathResult with
  | none => .done (some .noPath) acc2
  | some [] => .done none acc2
  | some path =>
    if snap.canTeleport = true ∧ 1 < path.length then
      let maxSeg := min 10 path.length
      match lookaheadScanGo snap.isObstacleBetween snap.areaOrigin snap.playerPos path maxSeg 0 with
      | none => bypassStep P s snap s.obstacleBypassAttempts acc2
      | some lv =>
        let path2 :=
          if lv < maxSeg - 1 ∧ lv < path.length - 1 then
            let lastValidWorldPos := worldOf snap.areaOrigin (path.getD lv ⟨0, 0⟩)
            if snap.isObstacleBetween lastValidWorldPos P.dest then path.drop lv
            else path.take (lv + 1)
          else path
        commitMove P s snap acc2 path2
    else commitMove P s snap acc2 path

/-- The segment of an iteration from the monster-interrupt check on
(move.go lines 284-502): monster check, round-trip and stuck liveness
detection, soft-block recovery, then the tail (skill, path, look-ahead,
commit). -/
def livenessStage (P : MoveParams) (s : MoveState) (snap : Snapshot) : IterResult :=
  if (monsterGuard P s snap &&
      scanForMonster snap P.clearPathDist (candidateEnemies P.opts snap)) = true then
    .done (some .monstersInPath) (doorStageCommands snap P.dest)
  else if (withinRoundTrip s snap && roundTripExpired s snap) = true then
    .done (some .playerRoundTrip) (doorStageCommands snap P.dest)
  else if (stuckUnchanged s snap && stuckExpired s snap) = true then
    .done (some .playerStuck) (doorStageCommands snap P.dest)
  else if livenessBlocked s snap = true then
    match snap.closestDestructible with
    | some obj =>
      if obj.selectable = false then
        .next (livenessUpdate P s snap) (doorStageCommands snap P.dest)
      else moveIterationTail P (livenessUpdate P s snap) snap
        (doorStageCommands snap P.dest ++
          [Command.clickDestructible obj.pos, Command.sleepMs 100])
    | none =>
      if snap.closestDoorFound then
        moveIterationTail P (livenessUpdate P s snap) snap
          (doorStageCommands snap P.dest ++ [Command.interactDoor])
      else moveIterationTail P (livenessUpdate P s snap) snap (doorStageCommands snap P.dest)
  else moveIterationTail P (livenessUpdate P s snap) snap (doorStageCommands snap P.dest)

/-- One iteration of the `MoveTo` loop (move.go lines 166-503), in source
order: drop-interrupt check, area-transition check with the bounded
collision-data wait, teleport obstacle pre-check, finish-distance and
soft-blocked success checks, door handling, stationary band, cast gate,
monster-interrupt check, round-trip and stuck liveness detection,
soft-block recovery, then the tail (skill, path, look-ahead, commit). -/
def moveIteration (P : MoveParams) (s : MoveState) (snap : Snapshot) : IterResult :=
  if snap.dropErr then .done (some .dropInterrupt) []
  else if snap.area ≠ P.startArea then
    if (collisionWaitGo snap.collisionReady (snap.now + 2000) snap.now).1 then
      .done none []
    else .done (some .collisionTimeout) []
  else if precheckCond P s snap (snap.distanceFromMe P.dest) = true then
    bypassStep P s snap (s.obstacleBypassAttempts + 1) []
  else if snap.distanceFromMe P.dest ≤ P.minDistanceToFinishMoving then .done none []
  else if s.blocked = true ∧ snap.distanceFromMe P.dest ≤ P.minDistanceToFinishMoving * 2 then
    .done none []
  else if doorFailCond snap P.dest = true then
    .done (some .doorInteract) (doorRetryCommands snap.doorInteractOk 5 0)
  else if stationaryHit P.opts (snap.distanceFromMe P.dest) = true then
    .done none (doorStageCommands snap P.dest)
  else if castGateCond s snap = true then
    .next s (doorStageCommands snap P.dest ++
      [Command.sleepMs (snap.castDuration - (snap.now - s.lastRun))])
  else livenessStage P s snap

/-- Modelled from the spec: the `PathStuckDetector` state of the stuck
detector component.  Its implementation is code of this repository that is
not under src/ (only its test suite is), so the state and the methods
below follow the spec's words in section 4.1. -/
structure PathStuckDetector where
  lastPosition : Position := ⟨0, 0⟩
  stuckSince : Nat := 0
  blacklistedPoints : List Position := []
  enabled : Bool := true
deriving DecidableEq, Repr

/-- Modelled from the spec: `NewPathStuckDetector` with empty blacklist,
zero timer and detection enabled. -/
def NewPathStuckDetector : PathStuckDetector := {}

/-- Modelled from the spec: `OnStuckDetected(currentPosition,
nextIntendedPosition)` records `currentPosition` as blacklisted; if
`nextIntendedPosition != currentPosition`, additionally records it as a
second, independent blacklist entry; equal arguments yield exactly one
entry. -/
def OnStuckDetected (d : PathStuckDetector)
    (currentPosition nextIntendedPosition : Position) : PathStuckDetector :=
  let d1 := { d with blacklistedPoints := d.blacklistedPoints ++ [currentPosition] }
  if nextIntendedPosition ≠ currentPosition then
    { d1 with blacklistedPoints := d1.blacklistedPoints ++ [nextIntendedPosition] }
  else d1

/-- Modelled from the spec: `GetBlacklistedPoints` returns the blacklist
snapshot in insertion order. -/
def GetBlacklistedPoints (d : PathStuckDetector) : List Position :=
  d.blacklistedPoints

/-- A concrete world snapshot used to instantiate the theorems below: the
player stands at (50, 50) in a non-town area, the destination is 50 units
away, one enemy sits 5 units away in line of sight, no doors or obstacles,
and the planner returns the single-point path [(10, 10)]. -/
def baseSnap : Snapshot := {
  now := 100000
  dropErr := false
  playerPos := ⟨50, 50⟩
  area := 1
  isTown := false
  canTeleport := false
  stunned := false
  castDuration := 250
  areaOrigin := ⟨0, 0⟩
  distanceFromMe := fun p => if p = ⟨55, 55⟩ then 5 else 50
  calcDistance := fun _ _ => 100
  isObstacleBetween := fun _ _ => false
  getPositionPast := fun _ => ⟨60, 60⟩
  hasDoorBetween := fun _ _ => false
  doorInteractOk := fun _ => true
  baseEnemies := [⟨1, ⟨55, 55⟩⟩]
  shouldIgnoreMonster := fun _ => false
  lineOfSight := fun _ _ => true
  closestDestructible := none
  closestDoorFound := false
  rightSkill := skillVigor
  keyBindingForSkill := fun _ => none
  pathResult := some [⟨10, 10⟩]
  collisionReady := fun _ => false }

/-- A concrete loop state one second into a call: timers started at
99000 ms, the previous position differs from the player's position. -/
def baseState : MoveState := {
  stepLastMonsterCheck := 0
  stuckCheckStartTime := 99000
  roundTripReferencePosition := ⟨500, 500⟩
  roundTripCheckStartTime := 99000
  lastRun := 0
  previousPosition := ⟨49, 50⟩
  blocked := false
  obstacleBypassAttempts := 0 }

/-- Concrete per-call parameters: destination (200, 200), no options,
shrine interaction enabled, configured clear-path distance 10. -/
def baseParams : MoveParams := setupParams ⟨200, 200⟩ [] true false 10 350 1

/-! ## Helper lemmas -/

/-- The door retry loop performs at most as many attempts as its fuel. -/
theorem doorRetry_attempts_le (ok : Nat → Bool) : ∀ n i, (doorRetry ok n i).2 ≤ n := by
  intro n
  induction n with
  | zero => intro i; simp [doorRetry]
  | succ n ih =>
    intro i
    unfold doorRetry
    split
    · simp
    · simpa using Nat.succ_le_succ (ih (i + 1))

/-- The collision-data wait performs at most `k` polls within a window of
`100 * k` milliseconds. -/
theorem collisionWaitGo_polls_le (ready : Nat → Bool) :
    ∀ k t, (collisionWaitGo ready (t + 100 * k) t).2 ≤ k := by
  intro k
  induction k with
  | zero =>
    intro t
    unfold collisionWaitGo
    simp
  | succ k ih =>
    intro t
    unfold collisionWaitGo
    rw [dif_pos (by omega : t < t + 100 * (k + 1))]
    split
    · simp
    · have h := ih (t + 100)
      have harith : t + 100 + 100 * k = t + 100 * (k + 1) := by omega
      rw [harith] at h
      simpa using Nat.succ_le_succ h

/-- The look-ahead scan validates fewer segments than its fuel: any
returned last-valid index is below `i + fuel`. -/
theorem lookaheadScanGo_lt (obst : Position → Position → Bool) (origin : Position) :
    ∀ fuel path cur i lv,
      lookaheadScanGo obst origin cur path fuel i = some lv → lv < i + fuel := by
  intro fuel
  induction fuel with
  | zero => intro path cur i lv h; simp [lookaheadScanGo] at h
  | succ f ih =>
    intro path cur i lv h
    cases path with
    | nil => simp [lookaheadScanGo] at h
    | cons p rest =>
      unfold lookaheadScanGo at h
      split at h
      · exact absurd h (by simp)
      · rcases hrec : lookaheadScanGo obst origin (worldOf origin p) rest f (i + 1) with _ | j
        · rw [hrec] at h
          simp only [Option.some.injEq] at h
          omega
        · rw [hrec] at h
          simp only [Option.some.injEq] at h
          have := ih rest (worldOf origin p) (i + 1) j hrec
          omega

/-- The enemy scan finds a monster exactly when some candidate passes the
ignore rule and then the distance, line-of-sight and door tests. -/
theorem scanForMonster_iff (snap : Snapshot) (cpd : Int) :
    ∀ ms : List Monster, scanForMonster snap cpd ms = true ↔
      ∃ m ∈ ms, snap.shouldIgnoreMonster m = false ∧
        snap.distanceFromMe m.pos ≤ cpd ∧
        snap.lineOfSight snap.playerPos m.pos = true ∧
        snap.hasDoorBetween snap.playerPos m.pos = false := by
  intro ms
  induction ms with
  | nil => simp [scanForMonster]
  | cons m rest ih =>
    unfold scanForMonster
    by_cases h1 : snap.shouldIgnoreMonster m
    · simp [h1, ih]
    · by_cases h2 : snap.distanceFromMe m.pos ≤ cpd
      · by_cases h3 : snap.lineOfSight snap.playerPos m.pos
        · by_cases h4 : snap.hasDoorBetween snap.playerPos m.pos
          · simp [h1, h2, h3, h4, ih]
          · simp [h1, h2, h3, h4]
        · simp [h1, h2, h3, ih]
      · simp [h1, h2, ih]

/-- No command of the door retry loop is a movement command. -/
theorem doorRetryCommands_no_move (ok : Nat → Bool) :
    ∀ n i, (doorRetryCommands ok n i).filter isMoveCmd = [] := by
  intro n
  induction n with
  | zero => intro i; simp [doorRetryCommands]
  | succ n ih =>
    intro i
    unfold doorRetryCommands
    split <;> simp [isMoveCmd, ih]

/-- No command of the skill-maintenance stage is a movement command. -/
theorem skillStageCommands_no_move (P : MoveParams) (snap : Snapshot) :
    (skillStageCommands P snap).filter isMoveCmd = [] := by
  unfold skillStageCommands
  repeat' split
  all_goals simp [isMoveCmd]

/-- Classification of the tail of an iteration: when it ends the call, the
only error it can produce is the no-path error; when it continues, the
liveness bookkeeping fields of the state it was given are preserved and
the bypass counter does not grow. -/
theorem moveIterationTail_cases (P : MoveParams) (s : MoveState) (snap : Snapshot)
    (acc : List Command) :
    (∀ e c, moveIterationTail P s snap acc = .done (some e) c → e = .noPath) ∧
    (∀ s' c, moveIterationTail P s snap acc = .next s' c →
      s'.blocked = s.blocked ∧ s'.stuckCheckStartTime = s.stuckCheckStartTime ∧
      s'.roundTripReferencePosition = s.roundTripReferencePosition ∧
      s'.roundTripCheckStartTime = s.roundTripCheckStartTime ∧
      s'.stepLastMonsterCheck = s.stepLastMonsterCheck ∧
      s'.obstacleBypassAttempts ≤ s.obstacleBypassAttempts) := by
  unfold moveIterationTail commitMove bypassStep
  constructor
  · intro e c h
    repeat' split at h
    all_goals try simp_all
    all_goals (split at h <;> simp_all)
  · intro s' c h
    simp only [] at h
    repeat' split at h
    all_goals
      first
      | (injection h with h1 h2
         subst h1
         refine ⟨rfl, rfl, rfl, rfl, rfl, ?_⟩
         first
         | exact Nat.le_refl _
         | exact Nat.zero_le _)
      | injection h

/-- The liveness bookkeeping never touches the bypass counter. -/
theorem livenessUpdate_obstacleBypassAttempts (P : MoveParams) (s : MoveState)
    (snap : Snapshot) :
    (livenessUpdate P s snap).obstacleBypassAttempts = s.obstacleBypassAttempts := by
  unfold livenessUpdate
  repeat' split
  all_goals rfl

/-- The soft-blocked flag after the liveness bookkeeping is exactly
`livenessBlocked`. -/
theorem livenessUpdate_blocked (P : MoveParams) (s : MoveState) (snap : Snapshot) :
    (livenessUpdate P s snap).blocked = livenessBlocked s snap := by
  unfold livenessUpdate
  repeat' split
  all_goals rfl

/-- When the position changed (or the agent is stunned), the stuck timer
is reset to the current time. -/
theorem livenessUpdate_stuckReset (P : MoveParams) (s : MoveState) (snap : Snapshot)
    (h : stuckUnchanged s snap = false) :
    (livenessUpdate P s snap).stuckCheckStartTime = snap.now := by
  unfold livenessUpdate
  repeat' split
  all_goals simp_all

/-- When the player left the round-trip radius, the reference position and
the round-trip timer are reset. -/
theorem livenessUpdate_rtReset (P : MoveParams) (s : MoveState) (snap : Snapshot)
    (h : withinRoundTrip s snap = false) :
    (livenessUpdate P s snap).roundTripReferencePosition = snap.playerPos ∧
    (livenessUpdate P s snap).roundTripCheckStartTime = snap.now := by
  unfold livenessUpdate
  repeat' split
  all_goals simp_all

/-- If collision data never becomes ready, the bounded wait reports
failure. -/
theorem collisionWaitGo_never_ready (d t : Nat) :
    (collisionWaitGo (fun _ => false) d t).1 = false := by
  have H : ∀ n t, d - t ≤ n → (collisionWaitGo (fun _ => false) d t).1 = false := by
    intro n
    induction n with
    | zero =>
      intro t ht
      unfold collisionWaitGo
      rw [dif_neg (by omega)]
    | succ n ih =>
      intro t ht
      unfold collisionWaitGo
      by_cases h : t < d
      · rw [dif_pos h]
        simpa using ih (t + 100) (by omega)
      · rw [dif_neg h]
  exact H (d - t) t (Nat.le_refl _)

/-- No option-applying function reads the ignore-shrines flag, so after
overwriting that flag the initial value of the flag is irrelevant to the
result of applying a list of options. -/
theorem foldl_applyOption_shrines (l : List MoveOption) :
    ∀ (s : MoveOpts) (b c : Bool),
      { l.foldl applyOption { s with ignoreShrines := b } with ignoreShrines := c } =
      { l.foldl applyOption s with ignoreShrines := c } := by
  induction l with
  | nil => intro s b c; rfl
  | cons o l ih =>
    intro s b c
    cases o with
    | withDistanceToFinish d => exact ih { s with distanceOverride := some d } b c
    | withStationaryDistance mn mx =>
        exact ih { s with stationaryMinDistance := some mn
                          stationaryMaxDistance := some mx } b c
    | withIgnoreMonsters => exact ih { s with ignoreMonsters := true } b c
    | withIgnoreItems => exact ih { s with ignoreItems := true } b c
    | ignoreShrines => exact ih { s with ignoreShrines := true } true c
    | withMonsterFilter fs =>
        exact ih { s with monsterFilters := s.monsterFilters ++ fs } b c
    | withClearPathOverride d => exact ih { s with clearPathOverride := some d } b c

/-- Inserting the `IgnoreShrines()` option anywhere in the option list
does not change the options bag once the ignore-shrines flag has been
overwritten. -/
theorem applyOptions_insert_shrines (l1 l2 : List MoveOption) (c : Bool) :
    { applyOptions (l1 ++ MoveOption.ignoreShrines :: l2) with ignoreShrines := c } =
    { applyOptions (l1 ++ l2) with ignoreShrines := c } := by
  unfold applyOptions
  rw [List.foldl_append, List.foldl_append, List.foldl_cons]
  exact foldl_applyOption_shrines l2 (List.foldl applyOption {} l1) true c

/-- Inserting the `IgnoreShrines()` option anywhere in the option list
yields the same per-call parameters. -/
theorem setupParams_shrines_irrelevant (dest : Position) (l1 l2 : List MoveOption)
    (iw isD : Bool) (cpd : Int) (wd sa : Nat) :
    setupParams dest (l1 ++ MoveOption.ignoreShrines :: l2) iw isD cpd wd sa =
    setupParams dest (l1 ++ l2) iw isD cpd wd sa := by
  have h := applyOptions_insert_shrines l1 l2 (!iw)
  have g1 := congrArg MoveOpts.distanceOverride h
  have h1 : (applyOptions (l1 ++ MoveOption.ignoreShrines :: l2)).distanceOverride =
      (applyOptions (l1 ++ l2)).distanceOverride := g1
  have g2 := congrArg MoveOpts.stationaryMinDistance h
  have h2 : (applyOptions (l1 ++ MoveOption.ignoreShrines :: l2)).stationaryMinDistance =
      (applyOptions (l1 ++ l2)).stationaryMinDistance := g2
  have g3 := congrArg MoveOpts.stationaryMaxDistance h
  have h3 : (applyOptions (l1 ++ MoveOption.ignoreShrines :: l2)).stationaryMaxDistance =
      (applyOptions (l1 ++ l2)).stationaryMaxDistance := g3
  have g4 := congrArg MoveOpts.ignoreMonsters h
  have h4 : (applyOptions (l1 ++ MoveOption.ignoreShrines :: l2)).ignoreMonsters =
      (applyOptions (l1 ++ l2)).ignoreMonsters := g4
  have g5 := congrArg MoveOpts.ignoreItems h
  have h5 : (applyOptions (l1 ++ MoveOption.ignoreShrines :: l2)).ignoreItems =
      (applyOptions (l1 ++ l2)).ignoreItems := g5
  have g6 := congrArg MoveOpts.monsterFilters h
  have h6 : (applyOptions (l1 ++ MoveOption.ignoreShrines :: l2)).monsterFilters =
      (applyOptions (l1 ++ l2)).monsterFilters := g6
  have g7 := congrArg MoveOpts.clearPathOverride h
  have h7 : (applyOptions (l1 ++ MoveOption.ignoreShrines :: l2)).clearPathOverride =
      (applyOptions (l1 ++ l2)).clearPathOverride := g7
  simp only [setupParams, h1, h2, h3, h4, h5, h6, h7]

/-- An iteration result returns error `e` exactly when it is a `done` with
that error. -/
theorem retErr_done (t : IterResult) (e : Option MoveErr) :
    t.retErr = some e ↔ ∃ c, t = .done e c := by
  cases t <;> simp [IterResult.retErr]

/-- The door stage emits no movement command. -/
theorem doorStageCommands_no_move (snap : Snapshot) (dest : Position) :
    (doorStageCommands snap dest).filter isMoveCmd = [] := by
  unfold doorStageCommands
  split
  · exact doorRetryCommands_no_move snap.doorInteractOk 5 0
  · rfl

/-- Under the fall-through conditions of the early stages (no drop
interrupt, no area change, pre-check not firing, destination not reached,
not blocked-close, door stage succeeded, no stationary hit, cast gate
open), the iteration is exactly its liveness segment. -/
theorem moveIteration_reaches_liveness (P : MoveParams) (s : MoveState) (snap : Snapshot)
    (h1 : snap.dropErr = false) (h2 : snap.area = P.startArea)
    (h3 : precheckCond P s snap (snap.distanceFromMe P.dest) = false)
    (h4 : ¬snap.distanceFromMe P.dest ≤ P.minDistanceToFinishMoving)
    (h5 : ¬(s.blocked = true ∧ snap.distanceFromMe P.dest ≤ P.minDistanceToFinishMoving * 2))
    (h6 : doorFailCond snap P.dest = false)
    (h7 : stationaryHit P.opts (snap.distanceFromMe P.dest) = false)
    (h8 : castGateCond s snap = false) :
    moveIteration P s snap = livenessStage P s snap := by
  unfold moveIteration
  rw [if_neg (by simp [h1]), if_neg (by simp [h2]), if_neg (by simp [h3]), if_neg h4,
      if_neg h5, if_neg (by simp [h6]), if_neg (by simp [h7]), if_neg (by simp [h8])]

/-- When the liveness segment ends the call with an error, the error names
the stage that fired: the monster interrupt, the round-trip detector, the
stuck detector, or (from the tail) the no-path error. -/
theorem livenessStage_err (P : MoveParams) (s : MoveState) (snap : Snapshot) :
    ∀ e, (livenessStage P s snap).retErr = some (some e) →
      (e = .monstersInPath ∧ (monsterGuard P s snap &&
        scanForMonster snap P.clearPathDist (candidateEnemies P.opts snap)) = true) ∨
      (e = .playerRoundTrip ∧ (withinRoundTrip s snap && roundTripExpired s snap) = true) ∨
      (e = .playerStuck ∧ (stuckUnchanged s snap && stuckExpired s snap) = true) ∨
      e = .noPath := by
  intro e h
  unfold livenessStage at h
  repeat' split at h
  all_goals try simp_all [IterResult.retErr]
  all_goals
    (rcases (retErr_done _ _).1 h with ⟨c, hc⟩
     have hnp := (moveIterationTail_cases _ _ _ _).1 e c hc
     simp [hnp])

/-- When the liveness segment continues the loop, the successor state
carries the liveness bookkeeping: the soft-blocked flag is exactly
`livenessBlocked`, and the stuck and round-trip fields are those of
`livenessUpdate`. -/
theorem livenessStage_next (P : MoveParams) (s : MoveState) (snap : Snapshot) :
    ∀ s' c, livenessStage P s snap = .next s' c →
      s'.blocked = livenessBlocked s snap ∧
      s'.stuckCheckStartTime = (livenessUpdate P s snap).stuckCheckStartTime ∧
      s'.roundTripReferencePosition = (livenessUpdate P s snap).roundTripReferencePosition ∧
      s'.roundTripCheckStartTime = (livenessUpdate P s snap).roundTripCheckStartTime := by
  intro s' c h
  unfold livenessStage at h
  repeat' split at h
  all_goals
    first
    | (injection h with h1 h2
       subst h1
       exact ⟨livenessUpdate_blocked P s snap, rfl, rfl, rfl⟩)
    | (have hc := (moveIterationTail_cases P (livenessUpdate P s snap) snap _).2 s' c h
       exact ⟨hc.1.trans (livenessUpdate_blocked P s snap), hc.2.1, hc.2.2.1, hc.2.2.2.1⟩)
    | injection h

/-- When none of the monster, round-trip and stuck checks fire and the
soft-block recovery does not swallow the iteration (not blocked, or the
closest destructible is absent or still selectable), the liveness segment
is the tail applied to some command prefix free of movement commands. -/
theorem livenessStage_tail (P : MoveParams) (s : MoveState) (snap : Snapshot)
    (h9 : (monsterGuard P s snap &&
      scanForMonster snap P.clearPathDist (candidateEnemies P.opts snap)) = false)
    (h10 : (withinRoundTrip s snap && roundTripExpired s snap) = false)
    (h11 : (stuckUnchanged s snap && stuckExpired s snap) = false)
    (h12 : livenessBlocked s snap = false ∨ snap.closestDestructible = none ∨
      ∃ obj, snap.closestDestructible = some obj ∧ obj.selectable = true) :
    ∃ acc, livenessStage P s snap = moveIterationTail P (livenessUpdate P s snap) snap acc ∧
      acc.filter isMoveCmd = [] := by
  unfold livenessStage
  rw [if_neg (by simp [h9]), if_neg (by simp [h10]), if_neg (by simp [h11])]
  by_cases hbl : livenessBlocked s snap = true
  · rw [if_pos hbl]
    rcases h12 with h12 | h12 | ⟨obj, hobj, hsel⟩
    · exact absurd hbl (by simp [h12])
    · simp only [h12]
      by_cases hdoor : snap.closestDoorFound = true
      · rw [if_pos hdoor]
        exact ⟨_, rfl, by simp [List.filter_append, doorStageCommands_no_move, isMoveCmd]⟩
      · rw [if_neg hdoor]
        exact ⟨_, rfl, doorStageCommands_no_move snap P.dest⟩
    · simp only [hobj]
      rw [if_neg (by simp [hsel])]
      exact ⟨_, rfl, by simp [List.filter_append, doorStageCommands_no_move, isMoveCmd]⟩
  · rw [if_neg hbl]
    exact ⟨_, rfl, doorStageCommands_no_move snap P.dest⟩

/-- The tail on a planner failure: the no-path error, with only the
accumulated and skill commands emitted. -/
theorem moveIterationTail_path_none (P : MoveParams) (s : MoveState) (snap : Snapshot)
    (acc : List Command) (hpath : snap.pathResult = none) :
    moveIterationTail P s snap acc =
      .done (some .noPath) (acc ++ skillStageCommands P snap) := by
  unfold moveIterationTail
  rw [hpath]

/-- The tail on a found-but-empty path: success, with only the accumulated
and skill commands emitted. -/
theorem moveIterationTail_path_empty (P : MoveParams) (s : MoveState) (snap : Snapshot)
    (acc : List Command) (hpath : snap.pathResult = some []) :
    moveIterationTail P s snap acc = .done none (acc ++ skillStageCommands P snap) := by
  unfold moveIterationTail
  rw [hpath]

/-! ## Claims -/

/-- Snapshot for the C1 counterexample: the same world as `baseSnap` but
the agent can teleport (and supplies no clear-path override). -/
def c1Snap : Snapshot := { baseSnap with canTeleport := true
                                         rightSkill := skillTeleport }

/-- C1 (counterexample): all conditions of the claim hold -- non-town
area, clear-path distance 10 > 0, monsters not ignored, far more than
100 ms since the last monster check, and an enemy 5 units away in line of
sight with no door -- yet the iteration returns no error at all (`retErr`
is `none`): the agent can teleport and no clear-path override was
supplied, so the monster-interrupt check is skipped (move.go line 284). -/
theorem C1_counterexample :
    c1Snap.isTown = false ∧
    baseParams.opts.ignoreMonsters = false ∧
    baseParams.clearPathDist = 10 ∧
    stepMonsterCheckInterval < c1Snap.now - baseState.stepLastMonsterCheck ∧
    (∃ m ∈ candidateEnemies baseParams.opts c1Snap,
      c1Snap.shouldIgnoreMonster m = false ∧
      c1Snap.distanceFromMe m.pos ≤ baseParams.clearPathDist ∧
      c1Snap.lineOfSight c1Snap.playerPos m.pos = true ∧
      c1Snap.hasDoorBetween c1Snap.playerPos m.pos = false) ∧
    (moveIteration baseParams baseState c1Snap).retErr = none := by
  refine ⟨rfl, rfl, rfl, by decide,
    ⟨⟨1, ⟨55, 55⟩⟩, by decide, by decide, by decide, by decide, by decide⟩, by decide⟩

/-- C1 (amended): in any iteration that reaches the monster stage, when
the guard of the check holds -- monsters not ignored, non-town area,
the agent cannot teleport or a clear-path override was supplied,
clear-path distance positive, and more than 100 ms since the last check --
the iteration returns the monster-interrupt error exactly when some
candidate enemy (after the agent-specific ignore rule and the caller
filters) is within clear-path distance, in line of sight, and has no door
in between. -/
theorem C1_amended (P : MoveParams) (s : MoveState) (snap : Snapshot)
    (h1 : snap.dropErr = false) (h2 : snap.area = P.startArea)
    (h3 : precheckCond P s snap (snap.distanceFromMe P.dest) = false)
    (h4 : ¬snap.distanceFromMe P.dest ≤ P.minDistanceToFinishMoving)
    (h5 : ¬(s.blocked = true ∧ snap.distanceFromMe P.dest ≤ P.minDistanceToFinishMoving * 2))
    (h6 : doorFailCond snap P.dest = false)
    (h7 : stationaryHit P.opts (snap.distanceFromMe P.dest) = false)
    (h8 : castGateCond s snap = false)
    (hg : monsterGuard P s snap = true) :
    (moveIteration P s snap).retErr = some (some .monstersInPath) ↔
      ∃ m ∈ candidateEnemies P.opts snap, snap.shouldIgnoreMonster m = false ∧
        snap.distanceFromMe m.pos ≤ P.clearPathDist ∧
        snap.lineOfSight snap.playerPos m.pos = true ∧
        snap.hasDoorBetween snap.playerPos m.pos = false := by
  rw [moveIteration_reaches_liveness P s snap h1 h2 h3 h4 h5 h6 h7 h8]
  rw [← scanForMonster_iff snap P.clearPathDist (candidateEnemies P.opts snap)]
  constructor
  · intro hL
    rcases livenessStage_err P s snap _ hL with ⟨_, hm⟩ | ⟨he, _⟩ | ⟨he, _⟩ | he
    · simpa [hg] using hm
    · simp at he
    · simp at he
    · simp at he
  · intro hscan
    unfold livenessStage
    rw [if_pos (by simp [hg, hscan])]
    rfl

/-- C1 (witness): without teleport capability the guard holds in the base
world, and the enemy at distance 5 triggers the monster-interrupt error. -/
theorem C1_witness :
    (moveIteration baseParams baseState baseSnap).retErr =
      some (some .monstersInPath) :=
  (C1_amended baseParams baseState baseSnap rfl (by decide) (by decide) (by decide)
    (by decide) (by decide) (by decide) (by decide) (by decide)).mpr
    ⟨⟨1, ⟨55, 55⟩⟩, by decide, by decide, by decide, by decide, by decide⟩

/-- Snapshot for the C2 and C5 analyses: the player sits exactly on the
previous position and the round-trip reference (the distance oracle
reports 0), with no enemies. -/
def c2Snap : Snapshot := { baseSnap with calcDistance := fun _ _ => 0
                                         baseEnemies := [] }

/-- State for the C2 counterexample: position unchanged, stuck timer 3 s
old, round-trip timer 12 s old. -/
def c2State : MoveState :=
  { baseState with previousPosition := ⟨50, 50⟩
                   stuckCheckStartTime := 97000
                   roundTripCheckStartTime := 88000 }

/-- C2 (counterexample): the position is unchanged, the agent is not
stunned, and the stuck timer exceeds 2 s -- the claim demands
ErrPlayerStuck -- yet the iteration returns ErrPlayerRoundTrip, because
the round-trip detector (move.go line 314) runs before the stuck detector
(line 328) in the same iteration and fires first. -/
theorem C2_counterexample :
    stuckUnchanged c2State c2Snap = true ∧
    c2Snap.stunned = false ∧
    stuckThreshold < c2Snap.now - c2State.stuckCheckStartTime ∧
    moveIteration baseParams c2State c2Snap = .done (some .playerRoundTrip) [] := by
  refine ⟨by decide, rfl, by decide, by decide⟩

/-- C2 (amended): in any iteration that reaches the liveness stage in
which the round-trip detector (which runs first) does not return: with the
position unchanged and the agent not stunned, a stuck time above 2 s
returns the stuck error, and a stuck time above 200 ms raises the
soft-blocked flag; a changed position (or stunned state) means no stuck
error is returned this iteration and the stuck timer of any successor
state is reset to the current time; a continuing iteration carries exactly
the recomputed soft-blocked flag. -/
theorem C2_amended (P : MoveParams) (s : MoveState) (snap : Snapshot)
    (h1 : snap.dropErr = false) (h2 : snap.area = P.startArea)
    (h3 : precheckCond P s snap (snap.distanceFromMe P.dest) = false)
    (h4 : ¬snap.distanceFromMe P.dest ≤ P.minDistanceToFinishMoving)
    (h5 : ¬(s.blocked = true ∧ snap.distanceFromMe P.dest ≤ P.minDistanceToFinishMoving * 2))
    (h6 : doorFailCond snap P.dest = false)
    (h7 : stationaryHit P.opts (snap.distanceFromMe P.dest) = false)
    (h8 : castGateCond s snap = false)
    (h9 : (monsterGuard P s snap &&
      scanForMonster snap P.clearPathDist (candidateEnemies P.opts snap)) = false)
    (h10 : (withinRoundTrip s snap && roundTripExpired s snap) = false) :
    (stuckUnchanged s snap = true → stuckExpired s snap = true →
      moveIteration P s snap = .done (some .playerStuck) (doorStageCommands snap P.dest)) ∧
    (stuckUnchanged s snap = true → stuckBlockExpired s snap = true →
      livenessBlocked s snap = true) ∧
    (stuckUnchanged s snap = false →
      (moveIteration P s snap).retErr ≠ some (some .playerStuck) ∧
      ∀ s' c, moveIteration P s snap = .next s' c → s'.stuckCheckStartTime = snap.now) ∧
    (∀ s' c, moveIteration P s snap = .next s' c → s'.blocked = livenessBlocked s snap) := by
  rw [moveIteration_reaches_liveness P s snap h1 h2 h3 h4 h5 h6 h7 h8]
  refine ⟨?_, ?_, ?_, ?_⟩
  · intro hu he
    unfold livenessStage
    rw [if_neg (by simp [h9]), if_neg (by simp [h10]), if_pos (by simp [hu, he])]
  · intro hu hb
    simp [livenessBlocked, hu, hb]
  · intro hu
    constructor
    · intro hL
      rcases livenessStage_err P s snap _ hL with ⟨he, _⟩ | ⟨he, _⟩ | ⟨_, hcond⟩ | he
      · simp at he
      · simp at he
      · simp [hu] at hcond
      · simp at he
    · intro s' c hn
      have hv := livenessStage_next P s snap s' c hn
      rw [hv.2.1, livenessUpdate_stuckReset P s snap hu]
  · intro s' c hn
    exact (livenessStage_next P s snap s' c hn).1

/-- State for the C2 witness: position unchanged, stuck timer 3 s old,
round-trip timer only 1 s old (round-trip does not fire). -/
def c2wState : MoveState :=
  { baseState with previousPosition := ⟨50, 50⟩
                   stuckCheckStartTime := 97000 }

/-- C2 (witness): with the position unchanged for 3 s and the round-trip
detector quiet, the iteration returns the stuck error. -/
theorem C2_witness :
    (moveIteration baseParams c2wState c2Snap).retErr = some (some .playerStuck) :=
  congrArg IterResult.retErr
    ((C2_amended baseParams c2wState c2Snap rfl (by decide) (by decide) (by decide)
      (by decide) (by decide) (by decide) (by decide) (by decide) (by decide)).1
      (by decide) (by decide))

/-- State for the C5 counterexample and witness: round-trip timer 12 s
old. -/
def c5State : MoveState := { baseState with roundTripCheckStartTime := 88000 }

/-- Snapshot for the C5 counterexample: on top of the C2 world the
destination is only 3 units away. -/
def c5Snap : Snapshot := { c2Snap with distanceFromMe := fun _ => 3 }

/-- C5 (counterexample): the player is within 8 units of the round-trip
reference and more than 10 s have elapsed -- the claim demands
ErrPlayerRoundTrip -- yet the iteration returns nil, because the
destination is within the finish threshold and the success check
(move.go line 236) runs before the round-trip detector (line 314). -/
theorem C5_counterexample :
    withinRoundTrip c5State c5Snap = true ∧
    roundTripExpired c5State c5Snap = true ∧
    moveIteration baseParams c5State c5Snap = .done none [] := by
  refine ⟨by decide, by decide, by decide⟩

/-- C5 (amended): in any iteration that reaches the round-trip detector:
within 8 units of the reference, an elapsed time above 10 s returns the
round-trip error and an elapsed time above 5 s raises the soft-blocked
flag; beyond 8 units no round-trip error is returned this iteration and
any successor state carries the current position as new reference and a
restarted timer. -/
theorem C5_amended (P : MoveParams) (s : MoveState) (snap : Snapshot)
    (h1 : snap.dropErr = false) (h2 : snap.area = P.startArea)
    (h3 : precheckCond P s snap (snap.distanceFromMe P.dest) = false)
    (h4 : ¬snap.distanceFromMe P.dest ≤ P.minDistanceToFinishMoving)
    (h5 : ¬(s.blocked = true ∧ snap.distanceFromMe P.dest ≤ P.minDistanceToFinishMoving * 2))
    (h6 : doorFailCond snap P.dest = false)
    (h7 : stationaryHit P.opts (snap.distanceFromMe P.dest) = false)
    (h8 : castGateCond s snap = false)
    (h9 : (monsterGuard P s snap &&
      scanForMonster snap P.clearPathDist (candidateEnemies P.opts snap)) = false) :
    (withinRoundTrip s snap = true → roundTripExpired s snap = true →
      moveIteration P s snap = .done (some .playerRoundTrip) (doorStageCommands snap P.dest)) ∧
    (withinRoundTrip s snap = true → roundTripHalf s snap = true →
      livenessBlocked s snap = true) ∧
    (withinRoundTrip s snap = false →
      (moveIteration P s snap).retErr ≠ some (some .playerRoundTrip) ∧
      ∀ s' c, moveIteration P s snap = .next s' c →
        s'.roundTripReferencePosition = snap.playerPos ∧
        s'.roundTripCheckStartTime = snap.now) := by
  rw [moveIteration_reaches_liveness P s snap h1 h2 h3 h4 h5 h6 h7 h8]
  refine ⟨?_, ?_, ?_⟩
  · intro hw he
    unfold livenessStage
    rw [if_neg (by simp [h9]), if_pos (by simp [hw, he])]
  · intro hw hh
    simp [livenessBlocked, hw, hh]
  · intro hw
    constructor
    · intro hL
      rcases livenessStage_err P s snap _ hL with ⟨he, _⟩ | ⟨_, hcond⟩ | ⟨he, _⟩ | he
      · simp at he
      · simp [hw] at hcond
      · simp at he
      · simp at he
    · intro s' c hn
      have hv := livenessStage_next P s snap s' c hn
      have hr := livenessUpdate_rtReset P s snap hw
      exact ⟨hv.2.2.1.trans hr.1, hv.2.2.2.trans hr.2⟩

/-- C5 (witness): with the player oscillating on the reference for 12 s
and the destination far away, the iteration returns the round-trip
error. -/
theorem C5_witness :
    (moveIteration baseParams c5State c2Snap).retErr =
      some (some .playerRoundTrip) :=
  congrArg IterResult.retErr
    ((C5_amended baseParams c5State c2Snap rfl (by decide) (by decide) (by decide)
      (by decide) (by decide) (by decide) (by decide) (by decide)).1
      (by decide) (by decide))

/-- Snapshot for the C6 witness: no enemies and a planner failure. -/
def c6Snap : Snapshot := { baseSnap with baseEnemies := []
                                         pathResult := none }

/-- C6: in any iteration that reaches path computation, a planner failure
returns the no-path error and issues no movement command, and a
found-but-empty path returns success and issues no movement command. -/
theorem C6_path_outcomes (P : MoveParams) (s : MoveState) (snap : Snapshot)
    (h1 : snap.dropErr = false) (h2 : snap.area = P.startArea)
    (h3 : precheckCond P s snap (snap.distanceFromMe P.dest) = false)
    (h4 : ¬snap.distanceFromMe P.dest ≤ P.minDistanceToFinishMoving)
    (h5 : ¬(s.blocked = true ∧ snap.distanceFromMe P.dest ≤ P.minDistanceToFinishMoving * 2))
    (h6 : doorFailCond snap P.dest = false)
    (h7 : stationaryHit P.opts (snap.distanceFromMe P.dest) = false)
    (h8 : castGateCond s snap = false)
    (h9 : (monsterGuard P s snap &&
      scanForMonster snap P.clearPathDist (candidateEnemies P.opts snap)) = false)
    (h10 : (withinRoundTrip s snap && roundTripExpired s snap) = false)
    (h11 : (stuckUnchanged s snap && stuckExpired s snap) = false)
    (h12 : livenessBlocked s snap = false ∨ snap.closestDestructible = none ∨
      ∃ obj, snap.closestDestructible = some obj ∧ obj.selectable = true) :
    (snap.pathResult = none →
      (moveIteration P s snap).retErr = some (some .noPath) ∧
      (moveIteration P s snap).cmds.filter isMoveCmd = []) ∧
    (snap.pathResult = some [] →
      (moveIteration P s snap).retErr = some none ∧
      (moveIteration P s snap).cmds.filter isMoveCmd = []) := by
  rw [moveIteration_reaches_liveness P s snap h1 h2 h3 h4 h5 h6 h7 h8]
  rcases livenessStage_tail P s snap h9 h10 h11 h12 with ⟨acc, heq, hfil⟩
  rw [heq]
  constructor
  · intro hpath
    rw [moveIterationTail_path_none P _ snap acc hpath]
    exact ⟨rfl, by simp [IterResult.cmds, List.filter_append, hfil,
      skillStageCommands_no_move]⟩
  · intro hpath
    rw [moveIterationTail_path_empty P _ snap acc hpath]
    exact ⟨rfl, by simp [IterResult.cmds, List.filter_append, hfil,
      skillStageCommands_no_move]⟩

/-- C6 (witness): with a planner failure in the base world, the iteration
returns the no-path error and issues no movement command. -/
theorem C6_witness :
    (moveIteration baseParams baseState c6Snap).retErr = some (some .noPath) ∧
    (moveIteration baseParams baseState c6Snap).cmds.filter isMoveCmd = [] :=
  (C6_path_outcomes baseParams baseState c6Snap rfl (by decide) (by decide) (by decide)
    (by decide) (by decide) (by decide) (by decide) (by decide) (by decide) (by decide)
    (Or.inl (by decide))).1 rfl

/-- In the C8 scenario -- reachable first path point, obstructed second
segment, destination directly reachable from the first point -- the tail
truncates the issued path to exactly the one-point reachable prefix. -/
theorem moveIterationTail_truncates (P : MoveParams) (s : MoveState) (snap : Snapshot)
    (acc : List Command) (p0 p1 : Position) (rest : List Position)
    (hct : snap.canTeleport = true)
    (hpath : snap.pathResult = some (p0 :: p1 :: rest))
    (hseg1 : snap.isObstacleBetween snap.playerPos (worldOf snap.areaOrigin p0) = false)
    (hseg2 : snap.isObstacleBetween (worldOf snap.areaOrigin p0)
      (worldOf snap.areaOrigin p1) = true)
    (hdest : snap.isObstacleBetween (worldOf snap.areaOrigin p0) P.dest = false) :
    moveIterationTail P s snap acc =
      commitMove P s snap (acc ++ skillStageCommands P snap) [p0] := by
  have hscan : lookaheadScanGo snap.isObstacleBetween snap.areaOrigin snap.playerPos
      (p0 :: p1 :: rest) (min 10 (p0 :: p1 :: rest).length) 0 = some 0 := by
    obtain ⟨k, hk⟩ : ∃ k, min 10 (p0 :: p1 :: rest).length = k + 2 :=
      ⟨min 8 rest.length, by simp [List.length_cons]; omega⟩
    rw [hk]
    have hnone : lookaheadScanGo snap.isObstacleBetween snap.areaOrigin
        (worldOf snap.areaOrigin p0) (p1 :: rest) (k + 1) 1 = none := by
      unfold lookaheadScanGo
      rw [if_pos hseg2]
    unfold lookaheadScanGo
    rw [if_neg (by simp [hseg1]), hnone]
  unfold moveIterationTail
  rw [hpath]
  simp only []
  rw [if_pos (⟨hct, by simp⟩ : snap.canTeleport = true ∧ 1 < (p0 :: p1 :: rest).length)]
  rw [hscan]
  simp only []
  rw [if_pos (⟨by simp only [List.length_cons]; omega,
      by simp only [List.length_cons]; omega⟩ :
    0 < min 10 (p0 :: p1 :: rest).length - 1 ∧ 0 < (p0 :: p1 :: rest).length - 1)]
  rw [if_neg (by simp [List.getD_cons_zero, hdest])]
  simp [List.take_succ_cons, List.take_zero]

/-- C8: with unconditional movement and a multi-point path whose first
point is reachable, second segment obstructed, and destination directly
reachable from the first point, the movement command issued is the path
truncated to exactly the one-point reachable prefix; and the look-ahead
scan is bounded by its fuel (at most the next 10 segments, stopping at the
first obstruction). -/
theorem C8_lookahead_truncation (P : MoveParams) (s : MoveState) (snap : Snapshot)
    (p0 p1 : Position) (rest : List Position)
    (h1 : snap.dropErr = false) (h2 : snap.area = P.startArea)
    (h3 : precheckCond P s snap (snap.distanceFromMe P.dest) = false)
    (h4 : ¬snap.distanceFromMe P.dest ≤ P.minDistanceToFinishMoving)
    (h5 : ¬(s.blocked = true ∧ snap.distanceFromMe P.dest ≤ P.minDistanceToFinishMoving * 2))
    (h6 : doorFailCond snap P.dest = false)
    (h7 : stationaryHit P.opts (snap.distanceFromMe P.dest) = false)
    (h8 : castGateCond s snap = false)
    (h9 : (monsterGuard P s snap &&
      scanForMonster snap P.clearPathDist (candidateEnemies P.opts snap)) = false)
    (h10 : (withinRoundTrip s snap && roundTripExpired s snap) = false)
    (h11 : (stuckUnchanged s snap && stuckExpired s snap) = false)
    (h12 : livenessBlocked s snap = false ∨ snap.closestDestructible = none ∨
      ∃ obj, snap.closestDestructible = some obj ∧ obj.selectable = true)
    (hct : snap.canTeleport = true)
    (hpath : snap.pathResult = some (p0 :: p1 :: rest))
    (hseg1 : snap.isObstacleBetween snap.playerPos (worldOf snap.areaOrigin p0) = false)
    (hseg2 : snap.isObstacleBetween (worldOf snap.areaOrigin p0)
      (worldOf snap.areaOrigin p1) = true)
    (hdest : snap.isObstacleBetween (worldOf snap.areaOrigin p0) P.dest = false) :
    (moveIteration P s snap).cmds.getLast? =
      some (Command.moveThroughPath [p0] P.walkDuration) ∧
    (∀ obst origin cur path fuel i lv,
      lookaheadScanGo obst origin cur path fuel i = some lv → lv < i + fuel) := by
  constructor
  · rw [moveIteration_reaches_liveness P s snap h1 h2 h3 h4 h5 h6 h7 h8]
    rcases livenessStage_tail P s snap h9 h10 h11 h12 with ⟨acc, heq, _⟩
    rw [heq, moveIterationTail_truncates P _ snap acc p0 p1 rest hct hpath hseg1 hseg2 hdest]
    unfold commitMove
    simp [IterResult.cmds]
  · intro obst origin cur path fuel i lv hl
    exact lookaheadScanGo_lt obst origin fuel path cur i lv hl

/-- Snapshot for the C8 witness: teleporting agent, two-point path with
the segment between the two points obstructed and nothing else. -/
def c8Snap : Snapshot :=
  { baseSnap with canTeleport := true
                  rightSkill := skillTeleport
                  baseEnemies := []
                  isObstacleBetween := fun a b =>
                    decide (a = ⟨10, 10⟩) && decide (b = ⟨20, 20⟩)
                  pathResult := some [⟨10, 10⟩, ⟨20, 20⟩] }

/-- C8 (witness): in the concrete two-point scenario the issued movement
is the single-point truncated path. -/
theorem C8_witness :
    (moveIteration baseParams baseState c8Snap).cmds.getLast? =
      some (Command.moveThroughPath [⟨10, 10⟩] 350) :=
  (C8_lookahead_truncation baseParams baseState c8Snap ⟨10, 10⟩ ⟨20, 20⟩ [] rfl
    (by decide) (by decide) (by decide) (by decide) (by decide) (by decide) (by decide)
    (by decide) (by decide) (by decide) (Or.inl (by decide)) rfl rfl
    (by decide) (by decide) (by decide)).1

/-- Snapshot for the C3 counterexample: teleport capability, destination 3
units away, an obstacle on every straight line. -/
def c3Snap : Snapshot :=
  { baseSnap with canTeleport := true
                  distanceFromMe := fun _ => 3
                  isObstacleBetween := fun _ _ => true }

/-- C3 (counterexample): the distance to the destination is 3, at most the
finish threshold 4, yet the iteration does not return at all (`retErr` is
`none`: the loop continues): the teleport obstacle-bypass pre-check fires
and issues a corrective movement instead of returning success. -/
theorem C3_counterexample :
    c3Snap.distanceFromMe baseParams.dest ≤ baseParams.minDistanceToFinishMoving ∧
    (moveIteration baseParams baseState c3Snap).retErr = none := by
  constructor
  · decide
  · decide

/-- C3 (amended): in any iteration that reaches the distance check (no drop
interrupt, no area change) and in which the teleport obstacle-bypass
pre-check does not fire, `MoveTo` returns nil whenever the distance to the
destination is at most the finish threshold, and, when the soft-blocked
flag is set, also whenever it is at most twice the finish threshold. -/
theorem C3_amended (P : MoveParams) (s : MoveState) (snap : Snapshot)
    (hdrop : snap.dropErr = false) (harea : snap.area = P.startArea)
    (hpre : precheckCond P s snap (snap.distanceFromMe P.dest) = false) :
    (snap.distanceFromMe P.dest ≤ P.minDistanceToFinishMoving →
      moveIteration P s snap = .done none []) ∧
    (s.blocked = true → snap.distanceFromMe P.dest ≤ P.minDistanceToFinishMoving * 2 →
      moveIteration P s snap = .done none []) := by
  unfold moveIteration
  simp only [hdrop, harea, hpre, Bool.false_eq_true, if_false, ne_eq, not_true_eq_false]
  constructor
  · intro h
    rw [if_pos h]
  · intro hb hd
    by_cases h : snap.distanceFromMe P.dest ≤ P.minDistanceToFinishMoving
    · rw [if_pos h]
    · rw [if_neg h, if_pos ⟨hb, hd⟩]

/-- C3 (witness): without teleport capability the pre-check cannot fire;
with the destination 3 units away the iteration returns nil. -/
theorem C3_witness :
    moveIteration baseParams baseState { baseSnap with distanceFromMe := fun _ => 3 } =
      .done none [] :=
  (C3_amended baseParams baseState { baseSnap with distanceFromMe := fun _ => 3 }
    (by decide) (by decide) (by decide)).1 (by decide)

/-- C7: every internal retry mechanism of `MoveTo` is bounded: the teleport
obstacle-bypass pre-check only fires while the bypass counter is below 3
and the counter never exceeds 3 across an iteration; the door-interaction
retry loop performs at most 5 attempts; the area-transition wait polls at
most 20 times (2 s at 100 ms granularity) and returns a fatal error when
the collision data never loads. -/
theorem C7_bounded_retries :
    (∀ P s snap dist, precheckCond P s snap dist = true →
      s.obstacleBypassAttempts < 3) ∧
    (∀ P s snap s' c, s.obstacleBypassAttempts ≤ 3 →
      moveIteration P s snap = .next s' c → s'.obstacleBypassAttempts ≤ 3) ∧
    (∀ ok, (doorRetry ok 5 0).2 ≤ 5) ∧
    (∀ ready t, (collisionWaitGo ready (t + 2000) t).2 ≤ 20) ∧
    (∀ P s snap, snap.dropErr = false → snap.area ≠ P.startArea →
      (collisionWaitGo snap.collisionReady (snap.now + 2000) snap.now).1 = false →
      moveIteration P s snap = .done (some .collisionTimeout) []) := by
  refine ⟨?_, ?_, ?_, ?_, ?_⟩
  · intro P s snap dist h
    simp only [precheckCond, Bool.and_eq_true, decide_eq_true_eq] at h
    exact h.1.2
  · intro P s snap s' c hle h
    unfold moveIteration at h
    by_cases h1 : snap.dropErr = true
    · rw [if_pos h1] at h; simp at h
    rw [if_neg h1] at h
    by_cases h2 : snap.area ≠ P.startArea
    · rw [if_pos h2] at h
      by_cases h3 : (collisionWaitGo snap.collisionReady (snap.now + 2000) snap.now).1 = true
      · rw [if_pos h3] at h; simp at h
      · rw [if_neg h3] at h; simp at h
    rw [if_neg h2] at h
    by_cases h4 : precheckCond P s snap (snap.distanceFromMe P.dest) = true
    · rw [if_pos h4] at h
      unfold bypassStep at h
      simp only [] at h
      injection h with hs hc
      subst hs
      have hlt : s.obstacleBypassAttempts < 3 := by
        simp_all [precheckCond, maxObstacleBypassAttempts]
      show (if s.previousPosition ≠ snap.playerPos then 0
            else s.obstacleBypassAttempts + 1) ≤ 3
      split <;> omega
    rw [if_neg h4] at h
    by_cases h5 : snap.distanceFromMe P.dest ≤ P.minDistanceToFinishMoving
    · rw [if_pos h5] at h; simp at h
    rw [if_neg h5] at h
    by_cases h6 : s.blocked = true ∧
        snap.distanceFromMe P.dest ≤ P.minDistanceToFinishMoving * 2
    · rw [if_pos h6] at h; simp at h
    rw [if_neg h6] at h
    by_cases h7 : doorFailCond snap P.dest = true
    · rw [if_pos h7] at h; simp at h
    rw [if_neg h7] at h
    by_cases h8 : stationaryHit P.opts (snap.distanceFromMe P.dest) = true
    · rw [if_pos h8] at h; simp at h
    rw [if_neg h8] at h
    by_cases h9 : castGateCond s snap = true
    · rw [if_pos h9] at h
      injection h with hs hc
      subst hs
      exact hle
    rw [if_neg h9] at h
    unfold livenessStage at h
    by_cases h10 : (monsterGuard P s snap &&
        scanForMonster snap P.clearPathDist (candidateEnemies P.opts snap)) = true
    · rw [if_pos h10] at h; simp at h
    rw [if_neg h10] at h
    by_cases h11 : (withinRoundTrip s snap && roundTripExpired s snap) = true
    · rw [if_pos h11] at h; simp at h
    rw [if_neg h11] at h
    by_cases h12 : (stuckUnchanged s snap && stuckExpired s snap) = true
    · rw [if_pos h12] at h; simp at h
    rw [if_neg h12] at h
    have htail : ∀ acc, moveIterationTail P (livenessUpdate P s snap) snap acc = .next s' c →
        s'.obstacleBypassAttempts ≤ 3 := by
      intro acc hh
      have hc := (moveIterationTail_cases P _ snap _).2 s' c hh
      refine le_trans hc.2.2.2.2.2 ?_
      rw [livenessUpdate_obstacleBypassAttempts]
      exact hle
    by_cases h13 : livenessBlocked s snap = true
    · rw [if_pos h13] at h
      rcases hdes : snap.closestDestructible with _ | obj
      · rw [hdes] at h
        simp only [] at h
        by_cases h14 : snap.closestDoorFound
        · rw [if_pos h14] at h; exact htail _ h
        · rw [if_neg h14] at h; exact htail _ h
      · rw [hdes] at h
        simp only [] at h
        by_cases h15 : obj.selectable = false
        · rw [if_pos h15] at h
          injection h with hs hc
          subst hs
          rw [livenessUpdate_obstacleBypassAttempts]
          exact hle
        · rw [if_neg h15] at h; exact htail _ h
    · rw [if_neg h13] at h; exact htail _ h
  · intro ok
    exact doorRetry_attempts_le ok 5 0
  · intro ready t
    rw [show t + 2000 = t + 100 * 20 by norm_num]
    exact collisionWaitGo_polls_le ready 20 t
  · intro P s snap hdrop harea hfail
    unfold moveIteration
    simp only [hdrop, Bool.false_eq_true, if_false]
    rw [if_pos harea, if_neg (by simp [hfail])]

/-- Snapshot for the C7 witness of the area-transition timeout: the area
changed and collision data never becomes ready. -/
def c7Snap : Snapshot := { baseSnap with area := 2 }

/-- C7 (witness): concrete instances of each bound: the pre-check fires at
counter 0 < 3; the continued state of the concrete bypass iteration keeps
the counter at most 3; the failing door retry performs 5 attempts; a
2000 ms never-ready wait polls at most 20 times; and an area transition
with unloadable collision data is a fatal error. -/
theorem C7_witness :
    baseState.obstacleBypassAttempts < 3 ∧
    ({ baseState with lastRun := 100000
                      previousPosition := ⟨50, 50⟩ } : MoveState).obstacleBypassAttempts ≤ 3 ∧
    (doorRetry (fun _ => false) 5 0).2 ≤ 5 ∧
    (collisionWaitGo (fun _ => false) (0 + 2000) 0).2 ≤ 20 ∧
    moveIteration baseParams baseState c7Snap = .done (some .collisionTimeout) [] :=
  ⟨C7_bounded_retries.1 baseParams baseState c3Snap 3 (by decide),
   C7_bounded_retries.2.1 baseParams baseState c3Snap
     { baseState with lastRun := 100000, previousPosition := ⟨50, 50⟩ }
     [Command.moveThroughPath [⟨60, 60⟩] 350, Command.sleepMs 100]
     (by decide) (by decide),
   C7_bounded_retries.2.2.1 (fun _ => false),
   C7_bounded_retries.2.2.2.1 (fun _ => false) 0,
   C7_bounded_retries.2.2.2.2 baseParams baseState c7Snap rfl (by decide)
     (collisionWaitGo_never_ready _ _)⟩

/-- C4 (amended): after the option-applying functions have run, the options
bag is modified exactly once more: the ignore-shrines flag is overwritten
from the character configuration; every other field keeps the value the
options gave it, and the parameters are fixed for the rest of the call. -/
theorem C4_amended (dest : Position) (options : List MoveOption)
    (interactWithShrines isDragondin : Bool) (cfgClearPathDist : Int) (wd sa : Nat) :
    (setupParams dest options interactWithShrines isDragondin cfgClearPathDist wd sa).opts =
      { applyOptions options with ignoreShrines := !interactWithShrines } := rfl

/-- C4 (counterexample): with the `IgnoreShrines()` option supplied and
shrine interaction enabled in the configuration, the flag set by the
option (true) does not keep its value: `MoveTo` overwrites it to false
before the loop runs. -/
theorem C4_counterexample :
    (applyOptions [MoveOption.ignoreShrines]).ignoreShrines = true ∧
    (setupParams ⟨200, 200⟩ [MoveOption.ignoreShrines] true false 10 350 1).opts.ignoreShrines
      = false := ⟨rfl, rfl⟩

/-- C9: `OnStuckDetected(p, q)` with `q ≠ p` adds exactly two blacklist
entries, `OnStuckDetected(p, p)` exactly one, and every previously
blacklisted point remains blacklisted. -/
theorem C9_blacklist_counts (d : PathStuckDetector) (p q : Position) :
    (q ≠ p → (GetBlacklistedPoints (OnStuckDetected d p q)).length =
      (GetBlacklistedPoints d).length + 2) ∧
    ((GetBlacklistedPoints (OnStuckDetected d p p)).length =
      (GetBlacklistedPoints d).length + 1) ∧
    (∀ x ∈ GetBlacklistedPoints d, x ∈ GetBlacklistedPoints (OnStuckDetected d p q)) := by
  refine ⟨?_, ?_, ?_⟩
  · intro hne
    simp [OnStuckDetected, GetBlacklistedPoints, hne]
  · simp [OnStuckDetected, GetBlacklistedPoints]
  · intro x hx
    unfold OnStuckDetected GetBlacklistedPoints
    split <;> simp_all [GetBlacklistedPoints]

/-- C9 (witness): on the empty detector with the test-suite positions
(100, 100) and (107, 107), distinct arguments yield 2 entries and equal
arguments yield 1. -/
theorem C9_witness :
    ((⟨107, 107⟩ : Position) ≠ ⟨100, 100⟩) ∧
    (GetBlacklistedPoints (OnStuckDetected NewPathStuckDetector ⟨100, 100⟩ ⟨107, 107⟩)).length =
      (GetBlacklistedPoints NewPathStuckDetector).length + 2 ∧
    (GetBlacklistedPoints (OnStuckDetected NewPathStuckDetector ⟨100, 100⟩ ⟨100, 100⟩)).length =
      (GetBlacklistedPoints NewPathStuckDetector).length + 1 :=
  ⟨by decide,
   (C9_blacklist_counts NewPathStuckDetector ⟨100, 100⟩ ⟨107, 107⟩).1 (by decide),
   (C9_blacklist_counts NewPathStuckDetector ⟨100, 100⟩ ⟨100, 100⟩).2.1⟩

/-- C10: inserting the `IgnoreShrines()` option anywhere in the option
list changes nothing: the per-call parameters are identical and every
iteration of the loop behaves identically. -/
theorem C10_ignoreShrines_no_effect (dest : Position) (l1 l2 : List MoveOption)
    (iw isD : Bool) (cpd : Int) (wd sa : Nat) (s : MoveState) (snap : Snapshot) :
    moveIteration (setupParams dest (l1 ++ MoveOption.ignoreShrines :: l2) iw isD cpd wd sa) s snap =
      moveIteration (setupParams dest (l1 ++ l2) iw isD cpd wd sa) s snap ∧
    setupParams dest (l1 ++ MoveOption.ignoreShrines :: l2) iw isD cpd wd sa =
      setupParams dest (l1 ++ l2) iw isD cpd wd sa :=
  ⟨congrArg (fun P => moveIteration P s snap)
    (setupParams_shrines_irrelevant dest l1 l2 iw isD cpd wd sa),
   setupParams_shrines_irrelevant dest l1 l2 iw isD cpd wd sa⟩

end KooloStep
